import Mathlib

/-!
Shallow embedding of `src/main.rs` of doppl-rs, a single-file Bevy application
simulating wave propagation and the Doppler effect.

Modelling conventions:
* `f32` arithmetic is modelled over an arbitrary linear ordered field `K`
  (instantiated at `ℚ` for concrete evaluations and at `ℝ` for the wave
  formula).  The float constant `std::f32::consts::PI` and the function
  `f32::sin` are parameters `piK : K` and `sinK : K → K`; for the real-number
  reading they are `Real.pi` and `Real.sin`.
* Bevy entities are plain records.  Signal particles are children of their
  transmitter (the code parents them with `add_child`), receivers own their
  plot-point children, so `despawn_recursive` on a transmitter removes its
  particles and `despawn_recursive` on a receiver removes its plot points.
* The `Time` resource is an input per frame: `t` is the value the code
  computes as `time.elapsed().as_millis() as f32 / 1000.` and `delta` is
  `time.delta_seconds()`.
* Bevy's panicking operations (`Query::single`, `Query::single_mut`,
  `Option::unwrap`) are modelled with `Except PanicKind`.  The engine call
  `ScreenshotManager::save_screenshot_to_disk` is modelled as an external
  effect that records the requested file; its result is modelled as success
  (its failure would be a host-engine error, outside this program's code).
* The frame step applies the `Update` systems in their `.chain()` order from
  `main`, then the `PostUpdate` system `handle_rx_collision`, with commands
  applied between systems.
-/

namespace Doppl

variable {K : Type} [LinearOrderedField K]

/-- Constant `PARTICLE_AMPLITUDE: f32 = 50.`. -/
def PARTICLE_AMPLITUDE : K := 50

/-- Constant `PARTICLE_RADIUS: f32 = 5.`. -/
def PARTICLE_RADIUS : K := 5

/-- Constant `PARTICLE_SPEED: f32 = -200.`. -/
def PARTICLE_SPEED : K := -200

/-- Constant `PARTICLE_FREQUENCY: f32 = 2.`. -/
def PARTICLE_FREQUENCY : K := 2

/-- Constant `RECEIVER_WIDTH = 2. * PARTICLE_AMPLITUDE + 2. * PARTICLE_RADIUS`. -/
def RECEIVER_WIDTH : K := 2 * PARTICLE_AMPLITUDE + 2 * PARTICLE_RADIUS

/-- Constant `RECEIVER_HEIGHT = 2. * RECEIVER_WIDTH`. -/
def RECEIVER_HEIGHT : K := 2 * RECEIVER_WIDTH

/-- Constant `RECEIVER_TIME_SCALE = 2. * 1.0 / PARTICLE_FREQUENCY`. -/
def RECEIVER_TIME_SCALE : K := 2 * 1 / PARTICLE_FREQUENCY

/-- Constant `RECEIVER_DELTA_X_PER_SECOND = 2. * RECEIVER_WIDTH / RECEIVER_TIME_SCALE`. -/
def RECEIVER_DELTA_X_PER_SECOND : K := 2 * RECEIVER_WIDTH / RECEIVER_TIME_SCALE

/-- Constant `RECEIVER_SPEED: f32 = 100.`. -/
def RECEIVER_SPEED : K := 100

/-- Constant `PARTICLE_SPAWN_RATE_MS: u64 = 10`. -/
def PARTICLE_SPAWN_RATE_MS : ℕ := 10

/-- Constant `RES_WIDTH: u32 = 1280` (used as `f32` in `fit_canvas`). -/
def RES_WIDTH : K := 1280

/-- Constant `RES_HEIGHT: u32 = 720` (used as `f32` in `fit_canvas`). -/
def RES_HEIGHT : K := 720

/-- A two-dimensional translation (the `x`/`y` of a bevy `Transform`; the
`z` coordinate is only used for draw ordering and is not modelled). -/
structure Vec2 (K : Type) where
  x : K
  y : K
deriving DecidableEq

/-- State of a repeating bevy `Timer` (both timers in this program are
`TimerMode::Repeating`): its duration and elapsed time in seconds, and
whether it finished during the most recent tick. -/
structure TimerState (K : Type) where
  duration : K
  elapsed : K
  finishedFlag : Bool
deriving DecidableEq

/-- Bevy `Timer::tick` for a repeating timer: advance `elapsed` by `delta`;
the timer finishes when the accumulated time reaches the duration, in which
case the accumulated time wraps modulo the duration. -/
def timerTick [FloorRing K] (delta : K) (tm : TimerState K) : TimerState K :=
  let e := tm.elapsed + delta
  if tm.duration ≤ e then
    { duration := tm.duration
      elapsed := e - tm.duration * (⌊e / tm.duration⌋ : K)
      finishedFlag := true }
  else
    { tm with elapsed := e, finishedFlag := false }

/-- Bevy `Timer::reset`: elapsed time back to zero, not finished. -/
def timerReset (tm : TimerState K) : TimerState K :=
  { tm with elapsed := 0, finishedFlag := false }

/-- The `Receiver` component: `prev_collision_time` and
`current_draw_position` (both `Default`: `None` and `0.`). -/
structure Receiver (K : Type) where
  prev_collision_time : Option K
  current_draw_position : K
deriving DecidableEq

/-- The `Movement` enum. -/
inductive Movement
  | Left
  | Right
  | Stationary
deriving DecidableEq

/-- The `Transmitter` component: `spawn_point` (default `Vec2::ZERO`) and
the `spawn_rate` timer. -/
structure Transmitter (K : Type) where
  spawn_point : Vec2 K
  spawn_rate : TimerState K
deriving DecidableEq

/-- The `SignalParticle` component. -/
structure SignalParticle (K : Type) where
  speed : K
  amplitude : K
  frequency : K
deriving DecidableEq

/-- A transmitter entity: entity id, `Transmitter` component, `Transform`. -/
structure TxEntity (K : Type) where
  tid : ℕ
  tx : Transmitter K
  tf : Vec2 K
deriving DecidableEq

/-- A signal-particle entity: the id of its parent transmitter, its
`SignalParticle` component, and its local `Transform` (relative to the
parent; its `GlobalTransform` is the parent's translation plus `tf`). -/
structure ParticleEntity (K : Type) where
  parent : ℕ
  sig : SignalParticle K
  tf : Vec2 K
deriving DecidableEq

/-- A receiver entity: `Receiver` component, optional `Mover` component,
`Transform`, and the local translations of its plot-point children. -/
structure RxEntity (K : Type) where
  recv : Receiver K
  mover : Option Movement
  tf : Vec2 K
  plots : List (Vec2 K)
deriving DecidableEq

/-- The two `Local` system parameters of `screenshot_window`
(`counter : Local<u32>`, `start_screenshot : Local<bool>`; both default). -/
structure ScreenshotState where
  counter : ℕ
  start_screenshot : Bool
deriving DecidableEq

/-- The parts of the bevy `World` this program reads and writes: the
spawned entities, the `ResetTimer` resource, the `OrthographicProjection`
scales of the `OuterCamera` query, the number of `PrimaryWindow` entities,
the screenshot locals, the screenshot files requested so far (by counter
value), and a fresh-id counter for newly spawned transmitters. -/
structure World (K : Type) where
  txs : List (TxEntity K)
  rxs : List (RxEntity K)
  particles : List (ParticleEntity K)
  resetTimer : TimerState K
  projScales : List K
  windowCount : ℕ
  shot : ScreenshotState
  writes : List ℕ
  nextId : ℕ
deriving DecidableEq

/-- The per-frame external inputs: the elapsed time `t` (seconds, as the
code computes it from `time.elapsed().as_millis()`), `delta_seconds`,
the keyboard state for `R` (`pressed`) and `Space` (`just_pressed`), the
`WindowResized` events, and the `gifcreate` compile-time feature flag. -/
structure FrameInput (K : Type) where
  t : K
  delta : K
  rPressed : Bool
  spaceJustPressed : Bool
  resizeEvents : List (Vec2 K)
  gifcreate : Bool
deriving DecidableEq

/-- The panics this program itself can raise: `Query::single`/`single_mut`
on the `OuterCamera` projection in `fit_canvas`, `Query::single` on the
`PrimaryWindow` in `screenshot_window`, and `Option::unwrap` on
`prev_collision_time` in `handle_rx_collision`. -/
inductive PanicKind
  | singleOuterCamera
  | singlePrimaryWindow
  | unwrapNone
deriving DecidableEq

/-- Decidable equality on `Except` results, for evaluating the model on
concrete inputs. -/
instance {ε α : Type} [DecidableEq ε] [DecidableEq α] : DecidableEq (Except ε α) :=
  fun x y =>
    match x, y with
    | .ok a, .ok b =>
      if h : a = b then .isTrue (by rw [h]) else .isFalse (by simp [h])
    | .error a, .error b =>
      if h : a = b then .isTrue (by rw [h]) else .isFalse (by simp [h])
    | .ok _, .error _ => .isFalse (by simp)
    | .error _, .ok _ => .isFalse (by simp)

variable (piK : K) (sinK : K → K)

/-- Body of the `propagate_particle` loop for one particle: the new local
translation.  From the source: `a = -amplitude`, `k = 2π·f/speed`, `x` is
read before the x-update, then `x += speed * delta` and
`y = a * sin(k*x - 2π*f*t)`. -/
def propagateOne (t delta : K) (sp : SignalParticle K) (tf : Vec2 K) : Vec2 K :=
  let a := -sp.amplitude
  let k := 2 * piK * sp.frequency / sp.speed
  let x := tf.x
  { x := tf.x + sp.speed * delta
    y := a * sinK (k * x - 2 * piK * sp.frequency * t) }

/-- System `propagate_particle`: update every signal particle's transform. -/
def propagate_particle (t delta : K) (w : World K) : World K :=
  { w with particles :=
      w.particles.map fun p => { p with tf := propagateOne piK sinK t delta p.sig p.tf } }

/-- Loop of `produce_particle` over the transmitter query: tick each
spawn-rate timer and, when it finished, spawn a new particle (with the
constant amplitude/speed/frequency, at the transmitter's `spawn_point`)
as a child of that transmitter. -/
def produceAux [FloorRing K] (delta : K) :
    List (TxEntity K) → List (TxEntity K) × List (ParticleEntity K)
  | [] => ([], [])
  | txe :: rest =>
    let tm := timerTick delta txe.tx.spawn_rate
    let txe' := { txe with tx := { txe.tx with spawn_rate := tm } }
    let r := produceAux delta rest
    if tm.finishedFlag then
      (txe' :: r.1,
        { parent := txe.tid
          sig := { speed := PARTICLE_SPEED
                   amplitude := PARTICLE_AMPLITUDE
                   frequency := PARTICLE_FREQUENCY }
          tf := txe.tx.spawn_point } :: r.2)
    else (txe' :: r.1, r.2)

/-- System `produce_particle`. -/
def produce_particle [FloorRing K] (delta : K) (w : World K) : World K :=
  let r := produceAux delta w.txs
  { w with txs := r.1, particles := w.particles ++ r.2 }

/-- System `move_rx`: receivers with a `Mover` move by
`direction * RECEIVER_SPEED * delta` along x. -/
def move_rx (delta : K) (w : World K) : World K :=
  { w with rxs := w.rxs.map fun rx =>
      match rx.mover with
      | none => rx
      | some m =>
        let direction : K :=
          match m with
          | .Left => -1
          | .Right => 1
          | .Stationary => 0
        { rx with tf := { rx.tf with x := rx.tf.x + direction * RECEIVER_SPEED * delta } } }

/-- Helper `create_simulation`: spawn one transmitter (at x = 400, at the
given `y_pos`, with a fresh 10 ms repeating spawn timer and default
`spawn_point`) and one receiver (at `(rx_start_x, y_pos)`, default
`Receiver` state, with a `Mover` only for `Left`/`Right`). -/
def create_simulation (nid : ℕ) (rx_start_x y_pos : K) (movement : Movement) :
    TxEntity K × RxEntity K :=
  let transmitter_x : K := 400
  ({ tid := nid
     tx := { spawn_point := { x := 0, y := 0 }
             spawn_rate := { duration := (PARTICLE_SPAWN_RATE_MS : K) / 1000
                             elapsed := 0
                             finishedFlag := false } }
     tf := { x := transmitter_x, y := y_pos } },
   { recv := { prev_collision_time := none, current_draw_position := 0 }
     mover := match movement with
       | .Left => some .Left
       | .Right => some .Right
       | .Stationary => none
     tf := { x := rx_start_x, y := y_pos }
     plots := [] })

/-- Helper `start_simulation`: the three `create_simulation` calls, with
`start_x = -300.` and `y_pos = 200.`. -/
def start_simulation (nid : ℕ) :
    List (TxEntity K) × List (RxEntity K) :=
  let start_x : K := -300
  let y_pos : K := 200
  let s1 := create_simulation nid start_x y_pos .Stationary
  let s2 := create_simulation (nid + 1) start_x 0 .Right
  let s3 := create_simulation (nid + 2) 100 (-y_pos) .Left
  ([s1.1, s2.1, s3.1], [s1.2, s2.2, s3.2])

/-- Effect of `despawn_recursive` on every transmitter and every receiver:
the transmitters, their child particles, the receivers and their plot
points are all removed. -/
def despawnAllTxRx (w : World K) : World K :=
  let txIds := w.txs.map TxEntity.tid
  { w with
    txs := []
    rxs := []
    particles := w.particles.filter fun p => decide (p.parent ∉ txIds) }

/-- System `reset_simulation`: when `R` is held, reset the 10-second reset
timer, despawn every transmitter and receiver recursively, and run
`start_simulation` again. -/
def reset_simulation (rPressed : Bool) (w : World K) : World K :=
  if rPressed then
    let w1 := { despawnAllTxRx w with resetTimer := timerReset w.resetTimer }
    let s := start_simulation (K := K) w1.nextId
    { w1 with txs := s.1, rxs := s.2, nextId := w1.nextId + 3 }
  else w

/-- System `reset_simulation_timer`: tick the reset timer by `delta`; when
it finishes, despawn every transmitter and receiver recursively and run
`start_simulation` again. -/
def reset_simulation_timer [FloorRing K] (delta : K) (w : World K) : World K :=
  let tm := timerTick delta w.resetTimer
  let w1 := { w with resetTimer := tm }
  if tm.finishedFlag then
    let w2 := despawnAllTxRx w1
    let s := start_simulation (K := K) w2.nextId
    { w2 with txs := s.1, rxs := s.2, nextId := w2.nextId + 3 }
  else w1

/-- System `fit_canvas`: for each `WindowResized` event, read the single
`OuterCamera` projection (`single_mut` panics unless the query has exactly
one element) and set its scale to `1 / min(h_scale, v_scale)`. -/
def fit_canvas : List (Vec2 K) → List K → Except PanicKind (List K)
  | [], projs => .ok projs
  | ev :: rest, projs =>
    let h_scale := ev.x / RES_WIDTH
    let v_scale := ev.y / RES_HEIGHT
    match projs with
    | [_] => fit_canvas rest [1 / min h_scale v_scale]
    | _ => .error .singleOuterCamera

/-- System `screenshot_window`: only with the `gifcreate` feature; a space
press starts capture, after which (while `counter < 500`) each frame
increments the counter and requests a screenshot of the single primary
window (`single` panics unless exactly one exists).  The returned list
holds the counter values of the files requested this frame. -/
def screenshot_window (gifcreate spaceJustPressed : Bool) (windowCount : ℕ)
    (s : ScreenshotState) : Except PanicKind (ScreenshotState × List ℕ) :=
  if gifcreate then
    let path := s.counter
    let s1 := if spaceJustPressed then { s with start_screenshot := true } else s
    if s1.counter < 500 ∧ s1.start_screenshot = true then
      if windowCount = 1 then
        .ok ({ s1 with counter := s1.counter + 1 }, [path])
      else .error .singlePrimaryWindow
    else .ok (s1, [])
  else .ok (s, [])

/-- The collision test of `handle_rx_collision`, on the particle's global
translation and the receiver's translation. -/
def collides (particle_pos rx_translation : Vec2 K) : Bool :=
  let rx_right_bound := rx_translation.x + RECEIVER_WIDTH
  let rx_top_bound := rx_translation.y + RECEIVER_HEIGHT / 4
  let rx_bottom_bound := rx_translation.y - RECEIVER_HEIGHT / 4
  decide (particle_pos.y < rx_top_bound ∧ particle_pos.y > rx_bottom_bound ∧
    particle_pos.x < rx_right_bound)

/-- Receiver-side effect of one detected collision, from the body of
`handle_rx_collision`: if the draw position is already past
`2 * RECEIVER_WIDTH`, just remove the `Mover`; otherwise spawn a plot
point at `(RECEIVER_WIDTH - current_draw_position, y_local)`, then set
`prev_collision_time` to `t` if it was `None`, and advance the draw
position by `RECEIVER_DELTA_X_PER_SECOND * (t - prev_collision_time.unwrap())`
(the unwrap is the `PanicKind.unwrapNone` case). -/
def rxRecordCollision (t y_local : K) (rx : RxEntity K) :
    Except PanicKind (RxEntity K) :=
  if rx.recv.current_draw_position > 2 * RECEIVER_WIDTH then
    .ok { rx with mover := none }
  else
    let plot : Vec2 K := { x := RECEIVER_WIDTH - rx.recv.current_draw_position, y := y_local }
    let r1 := if rx.recv.prev_collision_time.isNone
      then { rx.recv with prev_collision_time := some t } else rx.recv
    match r1.prev_collision_time with
    | none => .error .unwrapNone
    | some pt =>
      .ok { rx with
        plots := rx.plots ++ [plot]
        recv := { prev_collision_time := some t
                  current_draw_position :=
                    r1.current_draw_position + RECEIVER_DELTA_X_PER_SECOND * (t - pt) } }

/-- One particle against one receiver: if the collision test passes, the
particle is despawned (the returned flag) and the receiver records the
collision. -/
def collideRxStep (t : K) (particle_pos : Vec2 K) (y_local : K) (rx : RxEntity K) :
    Except PanicKind (RxEntity K × Bool) :=
  if collides particle_pos rx.tf then
    match rxRecordCollision t y_local rx with
    | .error e => .error e
    | .ok rx' => .ok (rx', true)
  else .ok (rx, false)

/-- One particle against the whole receiver query (the inner loop of
`handle_rx_collision`; there is no `break`, so one particle can be recorded
by several receivers).  Returns the updated receivers and whether the
particle was despawned. -/
def processRxs (t : K) (particle_pos : Vec2 K) (y_local : K) :
    List (RxEntity K) → Except PanicKind (List (RxEntity K) × Bool)
  | [] => .ok ([], false)
  | rx :: rest =>
    match collideRxStep t particle_pos y_local rx with
    | .error e => .error e
    | .ok r1 =>
      match processRxs t particle_pos y_local rest with
      | .error e => .error e
      | .ok r2 => .ok (r1.1 :: r2.1, r1.2 || r2.2)

/-- The particle's `GlobalTransform` translation: its parent transmitter's
translation plus its local translation (transforms were propagated before
`handle_rx_collision` runs; an orphan keeps its own translation). -/
def globalPos (txs : List (TxEntity K)) (p : ParticleEntity K) : Vec2 K :=
  match txs.find? (fun txe => txe.tid == p.parent) with
  | some txe => { x := txe.tf.x + p.tf.x, y := txe.tf.y + p.tf.y }
  | none => p.tf

/-- The outer loop of `handle_rx_collision`: each particle in turn against
the receivers (whose state threads through).  Returns the updated
receivers and the surviving (not despawned) particles. -/
def processCollisions (t : K) (txs : List (TxEntity K)) :
    List (ParticleEntity K) → List (RxEntity K) →
    Except PanicKind (List (RxEntity K) × List (ParticleEntity K))
  | [], rxs => .ok (rxs, [])
  | p :: rest, rxs =>
    match processRxs t (globalPos txs p) p.tf.y rxs with
    | .error e => .error e
    | .ok r1 =>
      match processCollisions t txs rest r1.1 with
      | .error e => .error e
      | .ok r2 => .ok (r2.1, if r1.2 then r2.2 else p :: r2.2)

/-- System `handle_rx_collision` (PostUpdate, after transform
propagation). -/
def handle_rx_collision (t : K) (w : World K) : Except PanicKind (World K) :=
  match processCollisions t w.txs w.particles w.rxs with
  | .error e => .error e
  | .ok r => .ok { w with rxs := r.1, particles := r.2 }

/-- Sequencing of panicking computations (the propagation of a panic
through the rest of the frame). -/
def exceptBind {α β : Type} (e : Except PanicKind α)
    (f : α → Except PanicKind β) : Except PanicKind β :=
  match e with
  | .error er => .error er
  | .ok a => f a

/-- One whole frame: the `Update` systems in the `.chain()` order of
`main` (`propagate_particle`, `produce_particle`, `move_rx`,
`reset_simulation`, `reset_simulation_timer`, `fit_canvas`,
`screenshot_window`), then the `PostUpdate` system `handle_rx_collision`. -/
def frameStep [FloorRing K] (inp : FrameInput K) (w : World K) :
    Except PanicKind (World K) :=
  let w1 := propagate_particle piK sinK inp.t inp.delta w
  let w2 := produce_particle inp.delta w1
  let w3 := move_rx inp.delta w2
  let w4 := reset_simulation inp.rPressed w3
  let w5 := reset_simulation_timer inp.delta w4
  exceptBind (fit_canvas inp.resizeEvents w5.projScales) fun projs =>
    exceptBind
      (screenshot_window inp.gifcreate inp.spaceJustPressed w5.windowCount w5.shot)
      fun shotR =>
        handle_rx_collision inp.t
          { w5 with projScales := projs, shot := shotR.1, writes := w5.writes ++ shotR.2 }

/-- Several frames of `screenshot_window` alone: for each frame, the
space-just-pressed flag and the primary-window count.  Collects every file
requested across the frames. -/
def screenshotRun (gifcreate : Bool) :
    List (Bool × ℕ) → ScreenshotState → Except PanicKind (ScreenshotState × List ℕ)
  | [], s => .ok (s, [])
  | f :: rest, s =>
    match screenshot_window gifcreate f.1 f.2 s with
    | .error e => .error e
    | .ok r1 =>
      match screenshotRun gifcreate rest r1.1 with
      | .error e => .error e
      | .ok r2 => .ok (r2.1, r1.2 ++ r2.2)

/-- Identity-free view of a transmitter entity (its components and
transform, without the entity id). -/
structure TxData (K : Type) where
  tx : Transmitter K
  tf : Vec2 K
deriving DecidableEq

/-- Projection of a transmitter entity to its identity-free data. -/
def txData (txe : TxEntity K) : TxData K := { tx := txe.tx, tf := txe.tf }

/-- The transmitter configuration `start_simulation` produces, up to
entity ids. -/
def startTxData : List (TxData K) := (start_simulation (K := K) 0).1.map txData

/-- The receiver configuration `start_simulation` produces. -/
def startRxs : List (RxEntity K) := (start_simulation (K := K) 0).2

/-- A world is well formed when every particle is the child of a live
transmitter (true in every reachable world: particles are only spawned by
`produce_particle` as children of a queried transmitter, and despawning a
transmitter recursively despawns its children). -/
def WellFormed (w : World K) : Prop :=
  ∀ p ∈ w.particles, p.parent ∈ w.txs.map TxEntity.tid

/-- Closed-form motion law, modelled from the spec: a particle spawned at
x-position `x0` at time `t0` with speed `v` has x-position
`x0 + v * (t - t0)` at time `t`. -/
def spec_x_position (x0 v t0 t : K) : K := x0 + v * (t - t0)

/-! Supporting lemmas about the collision handler. -/

theorem rxRecordCollision_ok (t y_local : K) (rx : RxEntity K) :
    ∃ rx', rxRecordCollision t y_local rx = .ok rx' ∧ rx'.tf = rx.tf := by
  unfold rxRecordCollision
  by_cases hsat : rx.recv.current_draw_position > 2 * RECEIVER_WIDTH
  · rw [if_pos hsat]
    exact ⟨{ rx with mover := none }, rfl, rfl⟩
  · rw [if_neg hsat]
    cases hm : rx.recv.prev_collision_time with
    | none =>
      refine ⟨{ rx with
          plots := rx.plots ++ [{ x := RECEIVER_WIDTH - rx.recv.current_draw_position, y := y_local }]
          recv := { prev_collision_time := some t
                    current_draw_position :=
                      rx.recv.current_draw_position + RECEIVER_DELTA_X_PER_SECOND * (t - t) } },
        ?_, rfl⟩
      simp [hm]
    | some pt =>
      refine ⟨{ rx with
          plots := rx.plots ++ [{ x := RECEIVER_WIDTH - rx.recv.current_draw_position, y := y_local }]
          recv := { prev_collision_time := some t
                    current_draw_position :=
                      rx.recv.current_draw_position + RECEIVER_DELTA_X_PER_SECOND * (t - pt) } },
        ?_, rfl⟩
      simp [hm]

theorem collideRxStep_ok (t : K) (pp : Vec2 K) (yl : K) (rx : RxEntity K) :
    ∃ r, collideRxStep t pp yl rx = .ok r ∧ r.1.tf = rx.tf ∧ r.2 = collides pp rx.tf := by
  unfold collideRxStep
  by_cases hc : collides pp rx.tf
  · obtain ⟨rx', hok, htf⟩ := rxRecordCollision_ok t yl rx
    rw [if_pos hc, hok]
    exact ⟨(rx', true), rfl, htf, by rw [hc]⟩
  · rw [if_neg hc]
    refine ⟨(rx, false), rfl, rfl, ?_⟩
    simp only [Bool.not_eq_true] at hc
    rw [hc]

theorem processRxs_ok (t : K) (pp : Vec2 K) (yl : K) (rxs : List (RxEntity K)) :
    ∃ r, processRxs t pp yl rxs = .ok r ∧ r.1.map RxEntity.tf = rxs.map RxEntity.tf ∧
      r.2 = rxs.any fun rx => collides pp rx.tf := by
  induction rxs with
  | nil => exact ⟨([], false), rfl, rfl, rfl⟩
  | cons rx rest ih =>
    obtain ⟨r1, h1, htf1, hb1⟩ := collideRxStep_ok t pp yl rx
    obtain ⟨r2, h2, htf2, hb2⟩ := ih
    refine ⟨(r1.1 :: r2.1, r1.2 || r2.2), ?_, ?_, ?_⟩
    · unfold processRxs; rw [h1, h2]
    · simp [htf1, htf2]
    · simp [hb1, hb2]

omit [LinearOrderedField K] in
theorem any_tf_congr (g : Vec2 K → Bool) :
    ∀ (l1 l2 : List (RxEntity K)), l1.map RxEntity.tf = l2.map RxEntity.tf →
      (l1.any fun rx => g rx.tf) = (l2.any fun rx => g rx.tf) := by
  intro l1
  induction l1 with
  | nil =>
    intro l2 h
    cases l2 with
    | nil => rfl
    | cons b bs => simp at h
  | cons a as ih =>
    intro l2 h
    cases l2 with
    | nil => simp at h
    | cons b bs =>
      simp only [List.map_cons, List.cons.injEq] at h
      simp only [List.any_cons]
      rw [h.1, ih bs h.2]

theorem processCollisions_ok (t : K) (txs : List (TxEntity K))
    (ps : List (ParticleEntity K)) (rxs : List (RxEntity K)) :
    ∃ r, processCollisions t txs ps rxs = .ok r ∧
      r.1.map RxEntity.tf = rxs.map RxEntity.tf ∧
      r.2 = ps.filter fun p => !(rxs.any fun rx => collides (globalPos txs p) rx.tf) := by
  induction ps generalizing rxs with
  | nil => exact ⟨(rxs, []), rfl, rfl, rfl⟩
  | cons p rest ih =>
    obtain ⟨r1, h1, htf1, hb1⟩ := processRxs_ok t (globalPos txs p) p.tf.y rxs
    obtain ⟨r2, h2, htf2, hs2⟩ := ih r1.1
    refine ⟨(r2.1, if r1.2 then r2.2 else p :: r2.2), ?_, ?_, ?_⟩
    · unfold processCollisions; simp only [h1, h2]
    · rw [htf2, htf1]
    · have hfilter :
          (rest.filter fun p' => !(r1.1.any fun rx => collides (globalPos txs p') rx.tf)) =
            rest.filter fun p' => !(rxs.any fun rx => collides (globalPos txs p') rx.tf) := by
        apply List.filter_congr
        intro x _
        rw [any_tf_congr (fun tf => collides (globalPos txs x) tf) r1.1 rxs htf1]
      rw [hs2, hfilter, hb1, List.filter_cons]
      cases hany : rxs.any fun rx => collides (globalPos txs p) rx.tf <;> simp [hany]

theorem rxRecordCollision_sat (t yl : K) (rx : RxEntity K)
    (hsat : rx.recv.current_draw_position > 2 * RECEIVER_WIDTH) :
    rxRecordCollision t yl rx = .ok { rx with mover := none } := by
  unfold rxRecordCollision
  rw [if_pos hsat]

theorem rxRecordCollision_none (t yl : K) (rx : RxEntity K)
    (hsat : ¬ rx.recv.current_draw_position > 2 * RECEIVER_WIDTH)
    (hm : rx.recv.prev_collision_time = none) :
    rxRecordCollision t yl rx = .ok { rx with
      plots := rx.plots ++ [{ x := RECEIVER_WIDTH - rx.recv.current_draw_position, y := yl }]
      recv := { prev_collision_time := some t
                current_draw_position :=
                  rx.recv.current_draw_position + RECEIVER_DELTA_X_PER_SECOND * (t - t) } } := by
  unfold rxRecordCollision
  rw [if_neg hsat]
  simp [hm]

theorem rxRecordCollision_some (t yl pt : K) (rx : RxEntity K)
    (hsat : ¬ rx.recv.current_draw_position > 2 * RECEIVER_WIDTH)
    (hm : rx.recv.prev_collision_time = some pt) :
    rxRecordCollision t yl rx = .ok { rx with
      plots := rx.plots ++ [{ x := RECEIVER_WIDTH - rx.recv.current_draw_position, y := yl }]
      recv := { prev_collision_time := some t
                current_draw_position :=
                  rx.recv.current_draw_position + RECEIVER_DELTA_X_PER_SECOND * (t - pt) } } := by
  unfold rxRecordCollision
  rw [if_neg hsat]
  simp [hm]

theorem propagateOne_x (t delta : K) (sp : SignalParticle K) (tf : Vec2 K) :
    (propagateOne piK sinK t delta sp tf).x = tf.x + sp.speed * delta := rfl

/-- C1 (amended): for every signal particle, `propagate_particle` sets the
particle's y-translation to `-A * sin(k*x - 2*pi*f*t)` with
`k = 2*pi*f/v`, where `A` is the particle's amplitude, `f` its frequency,
`v` its speed, `x` its x-translation at the start of the frame, and `t`
the elapsed time in seconds — i.e. the spec's `±A*sin(k*x - 2*pi*f*t)`
with the negative sign. -/
theorem c1_wave_formula (sp : SignalParticle ℝ) (tf : Vec2 ℝ) (t delta : ℝ) :
    (propagateOne Real.pi Real.sin t delta sp tf).y =
      -sp.amplitude * Real.sin
        (2 * Real.pi * sp.frequency / sp.speed * tf.x - 2 * Real.pi * sp.frequency * t) := rfl

/-- C1 counterexample: for the concrete particle with amplitude 1,
frequency 1, speed 1, at x-translation 0 and elapsed time 1/4 s, the
y-translation the code computes is not `A * sin(k*x - 2*pi*f*t)` (the code
computes `+1`, the claimed formula gives `-1`). -/
theorem c1_cex :
    ¬ ((propagateOne Real.pi Real.sin (1/4) 0 ⟨1, 1, 1⟩ ⟨0, 0⟩).y =
        (⟨1, 1, 1⟩ : SignalParticle ℝ).amplitude * Real.sin
          (2 * Real.pi * (⟨1, 1, 1⟩ : SignalParticle ℝ).frequency /
              (⟨1, 1, 1⟩ : SignalParticle ℝ).speed * (⟨0, 0⟩ : Vec2 ℝ).x -
            2 * Real.pi * (⟨1, 1, 1⟩ : SignalParticle ℝ).frequency * (1/4))) := by
  intro h
  rw [c1_wave_formula] at h
  have harg : (2 * Real.pi * (⟨1, 1, 1⟩ : SignalParticle ℝ).frequency /
      (⟨1, 1, 1⟩ : SignalParticle ℝ).speed * (⟨0, 0⟩ : Vec2 ℝ).x -
        2 * Real.pi * (⟨1, 1, 1⟩ : SignalParticle ℝ).frequency * (1/4)) = -(Real.pi/2) := by
    show (2 * Real.pi * 1 / 1 * 0 - 2 * Real.pi * 1 * (1/4) : ℝ) = -(Real.pi/2)
    ring
  rw [harg, Real.sin_neg, Real.sin_pi_div_two] at h
  have h1 : (-(1:ℝ)) * -1 = 1 * -1 := h
  norm_num at h1

/-- C2: folding the per-frame update of `propagate_particle` (which adds
`speed * delta_seconds` to the x-translation each frame) over any sequence
of frames whose deltas sum to `t - t0` produces exactly the spec's closed
form `x0 + v * (t - t0)`: the incremental update refines the closed-form
motion law. -/
theorem c2_x_refines_closed_form (sp : SignalParticle K) (tf0 : Vec2 K)
    (frames : List (K × K)) (t0 t : K)
    (hsum : (frames.map Prod.snd).sum = t - t0) :
    (frames.foldl (fun tf fr => propagateOne piK sinK fr.1 fr.2 sp tf) tf0).x =
      spec_x_position tf0.x sp.speed t0 t := by
  have key : ∀ (l : List (K × K)) (tf : Vec2 K),
      (l.foldl (fun tf fr => propagateOne piK sinK fr.1 fr.2 sp tf) tf).x
        = tf.x + sp.speed * (l.map Prod.snd).sum := by
    intro l
    induction l with
    | nil => intro tf; simp
    | cons fr rest ih =>
      intro tf
      simp only [List.foldl_cons, List.map_cons, List.sum_cons]
      rw [ih, propagateOne_x]
      ring
  rw [key, hsum, spec_x_position]

/-- C2 witness: two frames of a half second each, for a particle of speed 2
spawned at x = 0 at time 0, land at the closed-form position at t = 1. -/
theorem c2_x_refines_closed_form_witness :
    ((([((0:ℚ), 1/2), (0, 1/2)] : List (ℚ × ℚ)).map Prod.snd).sum = 1 - 0) ∧
      ((([((0:ℚ), 1/2), (0, 1/2)] : List (ℚ × ℚ)).foldl
          (fun tf fr => propagateOne (0:ℚ) (fun _ => 0) fr.1 fr.2 ⟨2, 0, 0⟩ tf) ⟨0, 0⟩).x =
        spec_x_position 0 2 0 1) :=
  ⟨by norm_num, c2_x_refines_closed_form 0 (fun _ => 0) ⟨2, 0, 0⟩ ⟨0, 0⟩ _ 0 1 (by norm_num)⟩

theorem handle_rx_collision_ok (t : K) (w : World K) :
    ∃ w', handle_rx_collision t w = .ok w' ∧
      w'.particles =
        (w.particles.filter fun p => !(w.rxs.any fun rx => collides (globalPos w.txs p) rx.tf)) ∧
      w'.rxs.map RxEntity.tf = w.rxs.map RxEntity.tf ∧ w'.txs = w.txs := by
  obtain ⟨r, hr, htf, hs⟩ := processCollisions_ok t w.txs w.particles w.rxs
  refine ⟨{ w with rxs := r.1, particles := r.2 }, ?_, hs, htf, rfl⟩
  unfold handle_rx_collision
  rw [hr]

/-- C8: a particle collides with a receiver iff its global y-position is
strictly between the receiver's `y - RECEIVER_HEIGHT/4` and
`y + RECEIVER_HEIGHT/4` and its global x-position is strictly less than
the receiver's `x + RECEIVER_WIDTH`; the region is unbounded to the left,
and the collision pass despawns exactly the particles that collide with
some receiver (however far left they are), as the survivors-filter
equation states. -/
theorem c8_collision_region (ppos rtf : Vec2 K) (t : K) (txs : List (TxEntity K))
    (ps : List (ParticleEntity K)) (rxs : List (RxEntity K))
    (r : List (RxEntity K) × List (ParticleEntity K)) :
    (collides ppos rtf = true ↔
      (rtf.y - RECEIVER_HEIGHT / 4 < ppos.y ∧ ppos.y < rtf.y + RECEIVER_HEIGHT / 4 ∧
        ppos.x < rtf.x + RECEIVER_WIDTH)) ∧
    (processCollisions t txs ps rxs = .ok r →
      r.2 = (ps.filter fun p => !(rxs.any fun rx => collides (globalPos txs p) rx.tf)) ∧
      ∀ p ∈ ps, ∀ rx ∈ rxs, collides (globalPos txs p) rx.tf = true → p ∉ r.2) := by
  constructor
  · unfold collides
    simp only [decide_eq_true_eq]
    constructor
    · rintro ⟨h1, h2, h3⟩; exact ⟨h2, h1, h3⟩
    · rintro ⟨h1, h2, h3⟩; exact ⟨h2, h1, h3⟩
  · intro h
    obtain ⟨r', hr', _, hs⟩ := processCollisions_ok t txs ps rxs
    rw [h] at hr'
    obtain rfl : r = r' := Except.ok.inj hr'
    refine ⟨hs, ?_⟩
    intro p hp rx hrx hc hmem
    rw [hs, List.mem_filter] at hmem
    have hany : (rxs.any fun rx => collides (globalPos txs p) rx.tf) = true :=
      List.any_eq_true.2 ⟨rx, hrx, hc⟩
    rw [hany] at hmem
    simp at hmem

/-- C9 (amended): when a collision is recorded, the receiver's
`current_draw_position` never decreases, provided the collision time `t`
is at least the previously recorded collision time (true in a run, since
elapsed time never decreases).  On a receiver's first collision
(`prev_collision_time = None`) the increment is exactly zero, and (since
then the draw position is still zero) the plot point is placed at local
x-offset `RECEIVER_WIDTH`.  A collision that plots (draw position at most
`2 * RECEIVER_WIDTH`) with a previous collision at `p` adds exactly
`RECEIVER_DELTA_X_PER_SECOND * (t - p)`; a saturated collision adds
nothing. -/
theorem c9_draw_monotone (t y_local : K) (rx rx' : RxEntity K)
    (hok : rxRecordCollision t y_local rx = .ok rx') :
    ((∀ p, rx.recv.prev_collision_time = some p → p ≤ t) →
        rx.recv.current_draw_position ≤ rx'.recv.current_draw_position) ∧
      (rx.recv.prev_collision_time = none →
        rx'.recv.current_draw_position = rx.recv.current_draw_position) ∧
      (rx.recv.prev_collision_time = none → rx.recv.current_draw_position = 0 →
        rx'.plots = rx.plots ++ [{ x := RECEIVER_WIDTH, y := y_local }]) ∧
      (∀ p, rx.recv.prev_collision_time = some p →
        rx.recv.current_draw_position ≤ 2 * RECEIVER_WIDTH →
        rx'.recv.current_draw_position =
          rx.recv.current_draw_position + RECEIVER_DELTA_X_PER_SECOND * (t - p)) := by
  have hdelta : (0:K) ≤ RECEIVER_DELTA_X_PER_SECOND := by
    norm_num [RECEIVER_DELTA_X_PER_SECOND, RECEIVER_WIDTH, RECEIVER_TIME_SCALE,
      PARTICLE_AMPLITUDE, PARTICLE_RADIUS, PARTICLE_FREQUENCY]
  by_cases hsat : rx.recv.current_draw_position > 2 * RECEIVER_WIDTH
  · rw [rxRecordCollision_sat t y_local rx hsat] at hok
    obtain rfl : ({ rx with mover := none } : RxEntity K) = rx' := Except.ok.inj hok
    refine ⟨fun _ => le_refl _, fun _ => rfl, fun _ hdraw => ?_, fun p _ hle => ?_⟩
    · exact absurd (hdraw ▸ hsat)
        (by norm_num [RECEIVER_WIDTH, PARTICLE_AMPLITUDE, PARTICLE_RADIUS])
    · exact absurd hsat (not_lt.2 hle)
  · cases hm : rx.recv.prev_collision_time with
    | none =>
      rw [rxRecordCollision_none t y_local rx hsat hm] at hok
      obtain rfl := Except.ok.inj hok
      refine ⟨fun _ => ?_, fun _ => ?_, fun _ hdraw => ?_, fun p hp => ?_⟩
      · simp
      · simp
      · simp [hdraw]
      · cases hp
    | some pt =>
      rw [rxRecordCollision_some t y_local pt rx hsat hm] at hok
      obtain rfl := Except.ok.inj hok
      refine ⟨fun hle => ?_, fun hnone => ?_, fun hnone _ => ?_, fun p hp _ => ?_⟩
      · have hmul := mul_nonneg hdelta (sub_nonneg.2 (hle pt rfl))
        show rx.recv.current_draw_position ≤
          rx.recv.current_draw_position + RECEIVER_DELTA_X_PER_SECOND * (t - pt)
        linarith
      · cases hnone
      · cases hnone
      · obtain rfl : pt = p := Option.some.inj hp
        rfl

/-- C9 counterexample: a receiver whose draw position is 300 (past
`2 * RECEIVER_WIDTH = 220`) collides at t = 1 with previous collision at
t = 0; the code leaves the draw position at 300 and despawns the particle,
whereas "each collision adds `RECEIVER_DELTA_X_PER_SECOND * (t - prev)`"
would give 300 + 220. -/
theorem c9_cex :
    collideRxStep (1 : ℚ) { x := 0, y := 0 } 0
        { recv := { prev_collision_time := some 0, current_draw_position := 300 }
          mover := some .Right, tf := { x := 0, y := 0 }, plots := [] } =
      .ok ({ recv := { prev_collision_time := some 0, current_draw_position := 300 }
             mover := none, tf := { x := 0, y := 0 }, plots := [] }, true) ∧
    ¬ ((300 : ℚ) = 300 + RECEIVER_DELTA_X_PER_SECOND * (1 - 0)) := by
  constructor
  · unfold collideRxStep
    rw [rxRecordCollision_sat (1:ℚ) 0 _
        (by norm_num [RECEIVER_WIDTH, PARTICLE_AMPLITUDE, PARTICLE_RADIUS]),
      if_pos (show collides ({ x := 0, y := 0 } : Vec2 ℚ)
          ({ recv := { prev_collision_time := some 0, current_draw_position := 300 }
             mover := some .Right, tf := { x := 0, y := 0 },
             plots := [] } : RxEntity ℚ).tf = true from by
        norm_num [collides, RECEIVER_WIDTH, RECEIVER_HEIGHT,
          PARTICLE_AMPLITUDE, PARTICLE_RADIUS])]
  · norm_num [RECEIVER_DELTA_X_PER_SECOND, RECEIVER_WIDTH, RECEIVER_TIME_SCALE,
      PARTICLE_AMPLITUDE, PARTICLE_RADIUS, PARTICLE_FREQUENCY]

/-- C10: once a receiver's `current_draw_position` exceeds
`2 * RECEIVER_WIDTH`, a colliding particle is still despawned (the flag is
`true`) and the receiver's `Mover` is removed, but no plot point is
spawned and `prev_collision_time` and `current_draw_position` are left
unchanged (the result differs from the input receiver only in `mover`). -/
theorem c10_saturated (t yl : K) (pp : Vec2 K) (rx : RxEntity K)
    (hc : collides pp rx.tf = true)
    (hsat : rx.recv.current_draw_position > 2 * RECEIVER_WIDTH) :
    collideRxStep t pp yl rx = .ok ({ rx with mover := none }, true) := by
  unfold collideRxStep
  rw [if_pos hc, rxRecordCollision_sat t yl rx hsat]

/-! Supporting lemmas about reset and startup. -/

theorem start_simulation_data (nid : ℕ) :
    ((start_simulation (K := K) nid).1.map txData = startTxData) ∧
      ((start_simulation (K := K) nid).2 = startRxs) := ⟨rfl, rfl⟩

omit [LinearOrderedField K] in
theorem despawnAll_particles_nil (w : World K) (hwf : WellFormed w) :
    (despawnAllTxRx w).particles = [] := by
  unfold despawnAllTxRx
  simp only
  rw [List.filter_eq_nil_iff]
  intro p hp
  simp only [decide_eq_true_eq, Decidable.not_not]
  exact hwf p hp

theorem reset_config (w : World K) :
    (reset_simulation true w).txs.map txData = startTxData ∧
      (reset_simulation true w).rxs = startRxs := by
  unfold reset_simulation
  rw [if_pos rfl]
  exact ⟨rfl, rfl⟩

theorem reset_particles (w : World K) :
    (reset_simulation true w).particles =
      w.particles.filter fun p => decide (p.parent ∉ w.txs.map TxEntity.tid) := by
  unfold reset_simulation
  rw [if_pos rfl]
  rfl

theorem reset_true_particles_nil (w : World K) (hwf : WellFormed w) :
    (reset_simulation true w).particles = [] := by
  rw [reset_particles w, List.filter_eq_nil_iff]
  intro p hp
  simp only [decide_eq_true_eq, Decidable.not_not]
  exact hwf p hp

theorem reset_timer_config [FloorRing K] (delta : K) (w : World K)
    (hfin : (timerTick delta w.resetTimer).finishedFlag = true) :
    (reset_simulation_timer delta w).txs.map txData = startTxData ∧
      (reset_simulation_timer delta w).rxs = startRxs := by
  unfold reset_simulation_timer
  simp only [hfin, if_true]
  exact ⟨rfl, rfl⟩

theorem reset_simulation_false (w : World K) : reset_simulation false w = w := rfl

theorem reset_simulation_timer_notfin [FloorRing K] (delta : K) (w : World K)
    (hfin : (timerTick delta w.resetTimer).finishedFlag = false) :
    reset_simulation_timer delta w = { w with resetTimer := timerTick delta w.resetTimer } := by
  unfold reset_simulation_timer
  simp only [hfin, Bool.false_eq_true, if_false]

theorem reset_timer_particles_pres [FloorRing K] (delta : K) (w : World K)
    (h : w.particles = []) :
    (reset_simulation_timer delta w).particles = [] := by
  unfold reset_simulation_timer
  dsimp only
  split
  · simp [despawnAllTxRx, h]
  · exact h

theorem reset_timer_true_particles_nil [FloorRing K] (delta : K) (w : World K)
    (hfin : (timerTick delta w.resetTimer).finishedFlag = true) (hwf : WellFormed w) :
    (reset_simulation_timer delta w).particles = [] := by
  unfold reset_simulation_timer
  simp only [hfin, if_true]
  exact despawnAll_particles_nil { w with resetTimer := timerTick delta w.resetTimer } hwf

/-- C4: for a frame in which `R` is pressed, `reset_simulation` respawns
exactly the startup configuration of three transmitters (up to entity ids)
and three receivers (with empty receiver state and no plot points),
regardless of the prior world; it recursively despawns the transmitters'
child particles (the survivors are exactly the orphans, so in a
well-formed world no particle survives) and the old receivers with their
plot points. -/
theorem c4_reset_respawns (w : World K) :
    ((reset_simulation true w).txs.map txData = startTxData ∧
      (reset_simulation true w).rxs = startRxs) ∧
    ((reset_simulation true w).particles =
      w.particles.filter fun p => decide (p.parent ∉ w.txs.map TxEntity.tid)) ∧
    (WellFormed w → (reset_simulation true w).particles = []) := by
  exact ⟨reset_config w, reset_particles w, fun hwf => reset_true_particles_nil w hwf⟩

/-- Concrete transmitter for the C4 witness. -/
def c4Tx : TxEntity ℚ :=
  { tid := 0
    tx := { spawn_point := { x := 0, y := 0 }
            spawn_rate := { duration := 1/100, elapsed := 0, finishedFlag := false } }
    tf := { x := 400, y := 200 } }

/-- Concrete world for the C4 witness: one transmitter with one child
particle. -/
def c4World : World ℚ :=
  { txs := [c4Tx]
    rxs := []
    particles := [{ parent := 0
                    sig := { speed := -200, amplitude := 50, frequency := 2 }
                    tf := { x := -40, y := 3 } }]
    resetTimer := { duration := 10, elapsed := 0, finishedFlag := false }
    projScales := []
    windowCount := 1
    shot := { counter := 0, start_screenshot := false }
    writes := []
    nextId := 1 }

/-- C4 witness: the concrete world is well formed and resetting it
despawns its particle. -/
theorem c4_reset_respawns_witness :
    WellFormed c4World ∧
      (WellFormed c4World → (reset_simulation true c4World).particles = []) := by
  constructor
  · intro p hp
    simp only [c4World, List.mem_singleton] at hp
    subst hp
    simp [c4World, c4Tx]
  · exact fun hwf => (c4_reset_respawns c4World).2.2 hwf

/-- C5: reset produces a constant configuration.  Whether triggered by the
reset timer finishing or by the `R` key, the resulting transmitters (up to
entity ids) and receivers are exactly the startup configuration of
`start_simulation` (already expressed relative to the arbitrary prior
world `w`, this is independence from the prior state), and resetting twice
gives the same configuration as resetting once. -/
theorem c5_reset_constant [FloorRing K] (delta : K) (w : World K) :
    ((timerTick delta w.resetTimer).finishedFlag = true →
        (reset_simulation_timer delta w).txs.map txData = startTxData ∧
        (reset_simulation_timer delta w).rxs = startRxs) ∧
      ((reset_simulation true w).txs.map txData = startTxData ∧
        (reset_simulation true w).rxs = startRxs) ∧
      ((reset_simulation true (reset_simulation true w)).txs.map txData =
          (reset_simulation true w).txs.map txData ∧
        (reset_simulation true (reset_simulation true w)).rxs =
          (reset_simulation true w).rxs) := by
  refine ⟨fun hfin => reset_timer_config delta w hfin, reset_config w, ?_, ?_⟩
  · rw [(reset_config _).1, (reset_config w).1]
  · rw [(reset_config _).2, (reset_config w).2]

/-- Concrete world for the C5 witness. -/
def c5World : World ℚ :=
  { txs := []
    rxs := []
    particles := []
    resetTimer := { duration := 10, elapsed := 0, finishedFlag := false }
    projScales := []
    windowCount := 1
    shot := { counter := 0, start_screenshot := false }
    writes := []
    nextId := 0 }

/-- C5 witness: ticking the fresh 10-second reset timer by 10 seconds
finishes it, and the timer-triggered reset then yields the startup
configuration. -/
theorem c5_reset_constant_witness :
    (timerTick (10:ℚ) c5World.resetTimer).finishedFlag = true ∧
      ((reset_simulation_timer (10:ℚ) c5World).txs.map txData = startTxData ∧
        (reset_simulation_timer (10:ℚ) c5World).rxs = startRxs) := by
  have hfin : (timerTick (10:ℚ) c5World.resetTimer).finishedFlag = true := by
    norm_num [timerTick, c5World]
  exact ⟨hfin, (c5_reset_constant 10 c5World).1 hfin⟩

/-! Supporting lemmas about a full frame. -/

theorem exceptBind_ok {α β : Type} {e : Except PanicKind α}
    {f : α → Except PanicKind β} {b : β} (h : exceptBind e f = .ok b) :
    ∃ a, e = .ok a ∧ f a = .ok b := by
  cases e with
  | error er => simp [exceptBind] at h
  | ok a => exact ⟨a, rfl, h⟩

theorem fit_canvas_ok (evs : List (Vec2 K)) (projs : List K) (h : projs.length = 1) :
    ∃ r, fit_canvas evs projs = .ok r := by
  induction evs generalizing projs with
  | nil => exact ⟨projs, rfl⟩
  | cons ev rest ih =>
    obtain ⟨p, rfl⟩ := List.length_eq_one.1 h
    simp only [fit_canvas]
    exact ih _ rfl

theorem screenshot_window_ok (g sp : Bool) (wc : ℕ) (s : ScreenshotState) (h : wc = 1) :
    ∃ r, screenshot_window g sp wc s = .ok r := by
  subst h
  unfold screenshot_window
  dsimp only
  repeat' split
  all_goals first
    | exact ⟨_, rfl⟩
    | exact absurd rfl (by assumption)

theorem produceAux_spec [FloorRing K] (delta : K) (txs : List (TxEntity K)) :
    (produceAux delta txs).1.map TxEntity.tid = txs.map TxEntity.tid ∧
      ∀ p ∈ (produceAux delta txs).2, p.parent ∈ txs.map TxEntity.tid := by
  induction txs with
  | nil => exact ⟨rfl, fun p hp => absurd hp (List.not_mem_nil p)⟩
  | cons txe rest ih =>
    unfold produceAux
    dsimp only
    split
    · refine ⟨?_, ?_⟩
      · simp only [List.map_cons, ih.1]
      · intro p hp
        rcases List.mem_cons.1 hp with h | h
        · subst h
          simp
        · simp only [List.map_cons, List.mem_cons]
          exact Or.inr (ih.2 p h)
    · refine ⟨?_, ?_⟩
      · simp only [List.map_cons, ih.1]
      · intro p hp
        simp only [List.map_cons, List.mem_cons]
        exact Or.inr (ih.2 p hp)

theorem wf_propagate (t delta : K) (w : World K) (hwf : WellFormed w) :
    WellFormed (propagate_particle piK sinK t delta w) := by
  intro p hp
  unfold propagate_particle at hp
  simp only [List.mem_map] at hp
  obtain ⟨q, hq, rfl⟩ := hp
  exact hwf q hq

theorem wf_produce [FloorRing K] (delta : K) (w : World K) (hwf : WellFormed w) :
    WellFormed (produce_particle delta w) := by
  intro p hp
  unfold produce_particle at hp ⊢
  simp only [List.mem_append] at hp
  obtain ⟨hmap, hnew⟩ := produceAux_spec delta w.txs
  dsimp only
  rw [hmap]
  rcases hp with h | h
  · exact hwf p h
  · exact hnew p h

theorem wf_move (delta : K) (w : World K) (hwf : WellFormed w) :
    WellFormed (move_rx delta w) := hwf

theorem reset_simulation_pres (b : Bool) (w : World K) :
    (reset_simulation b w).projScales = w.projScales ∧
      (reset_simulation b w).windowCount = w.windowCount ∧
      (reset_simulation b w).shot = w.shot ∧
      (reset_simulation b w).writes = w.writes := by
  cases b
  · exact ⟨rfl, rfl, rfl, rfl⟩
  · exact ⟨rfl, rfl, rfl, rfl⟩

theorem reset_simulation_timer_pres [FloorRing K] (delta : K) (w : World K) :
    (reset_simulation_timer delta w).projScales = w.projScales ∧
      (reset_simulation_timer delta w).windowCount = w.windowCount ∧
      (reset_simulation_timer delta w).shot = w.shot ∧
      (reset_simulation_timer delta w).writes = w.writes := by
  unfold reset_simulation_timer
  dsimp only
  split
  · exact ⟨rfl, rfl, rfl, rfl⟩
  · exact ⟨rfl, rfl, rfl, rfl⟩

theorem frameStep_particles [FloorRing K] (inp : FrameInput K) (w w' : World K)
    (hstep : frameStep piK sinK inp w = .ok w') :
    w'.particles =
      ((reset_simulation_timer inp.delta (reset_simulation inp.rPressed
          (move_rx inp.delta (produce_particle inp.delta
            (propagate_particle piK sinK inp.t inp.delta w))))).particles.filter
        fun p =>
          !((reset_simulation_timer inp.delta (reset_simulation inp.rPressed
              (move_rx inp.delta (produce_particle inp.delta
                (propagate_particle piK sinK inp.t inp.delta w))))).rxs.any
            fun rx =>
              collides
                (globalPos (reset_simulation_timer inp.delta (reset_simulation inp.rPressed
                  (move_rx inp.delta (produce_particle inp.delta
                    (propagate_particle piK sinK inp.t inp.delta w))))).txs p) rx.tf)) := by
  unfold frameStep at hstep
  dsimp only at hstep
  obtain ⟨projs, hfit, hstep2⟩ := exceptBind_ok hstep
  obtain ⟨shotR, hshot, hstep3⟩ := exceptBind_ok hstep2
  obtain ⟨w'', hw'', hpart, -, -⟩ := handle_rx_collision_ok (K := K) inp.t _
  obtain rfl := Except.ok.inj (hw''.symm.trans hstep3)
  exact hpart

/-- C3 (amended): within one frame, a signal particle is despawned only by
receiver collision or by a reset recursively despawning it with its parent
transmitter; there is no off-screen despawn system.  In a frame with no
reset (no `R`, reset timer not finishing), the surviving particles are
exactly the particles present after movement that collide with no
receiver — in particular an off-screen particle that hits no receiver
survives; in a frame with `R` pressed, and likewise in a frame where the
10-second reset timer finishes, every particle of a well-formed world is
despawned (recursively, with its parent transmitter). -/
theorem c3_despawn_reasons [FloorRing K] (inp : FrameInput K) (w w' : World K) :
    (inp.rPressed = false →
      (timerTick inp.delta w.resetTimer).finishedFlag = false →
      frameStep piK sinK inp w = .ok w' →
      w'.particles =
        ((move_rx inp.delta (produce_particle inp.delta
            (propagate_particle piK sinK inp.t inp.delta w))).particles.filter
          fun p =>
            !((move_rx inp.delta (produce_particle inp.delta
                (propagate_particle piK sinK inp.t inp.delta w))).rxs.any
              fun rx =>
                collides
                  (globalPos (move_rx inp.delta (produce_particle inp.delta
                    (propagate_particle piK sinK inp.t inp.delta w))).txs p) rx.tf))) ∧
    (inp.rPressed = true → WellFormed w →
      frameStep piK sinK inp w = .ok w' → w'.particles = []) ∧
    (inp.rPressed = false →
      (timerTick inp.delta w.resetTimer).finishedFlag = true → WellFormed w →
      frameStep piK sinK inp w = .ok w' → w'.particles = []) := by
  refine ⟨?_, ?_, ?_⟩
  · intro hr hfin hstep
    have h := frameStep_particles piK sinK inp w w' hstep
    rw [hr, reset_simulation_false] at h
    rw [reset_simulation_timer_notfin inp.delta _
      (show (timerTick inp.delta (move_rx inp.delta (produce_particle inp.delta
        (propagate_particle piK sinK inp.t inp.delta w))).resetTimer).finishedFlag = false
        from hfin)] at h
    exact h
  · intro hr hwf hstep
    have h := frameStep_particles piK sinK inp w w' hstep
    rw [hr] at h
    have hwfu : WellFormed (move_rx inp.delta (produce_particle inp.delta
        (propagate_particle piK sinK inp.t inp.delta w))) :=
      wf_move _ _ (wf_produce _ _ (wf_propagate piK sinK _ _ _ hwf))
    have h4 : (reset_simulation true (move_rx inp.delta (produce_particle inp.delta
        (propagate_particle piK sinK inp.t inp.delta w)))).particles = [] :=
      reset_true_particles_nil _ hwfu
    have h5 : (reset_simulation_timer inp.delta (reset_simulation true
        (move_rx inp.delta (produce_particle inp.delta
          (propagate_particle piK sinK inp.t inp.delta w))))).particles = [] :=
      reset_timer_particles_pres _ _ h4
    rw [h5] at h
    simpa using h
  · intro hr hfin hwf hstep
    have h := frameStep_particles piK sinK inp w w' hstep
    rw [hr, reset_simulation_false] at h
    have hwfu : WellFormed (move_rx inp.delta (produce_particle inp.delta
        (propagate_particle piK sinK inp.t inp.delta w))) :=
      wf_move _ _ (wf_produce _ _ (wf_propagate piK sinK _ _ _ hwf))
    have h5 : (reset_simulation_timer inp.delta (move_rx inp.delta (produce_particle inp.delta
        (propagate_particle piK sinK inp.t inp.delta w)))).particles = [] :=
      reset_timer_true_particles_nil inp.delta _
        (show (timerTick inp.delta (move_rx inp.delta (produce_particle inp.delta
          (propagate_particle piK sinK inp.t inp.delta w))).resetTimer).finishedFlag = true
          from hfin) hwfu
    rw [h5] at h
    simpa using h

/-- C6: under the precondition that exactly one `OuterCamera` projection
and exactly one `PrimaryWindow` exist, a whole frame runs without any
panic, and `handle_rx_collision` (whose `unwrap` of `prev_collision_time`
is guarded) never panics for any input at all: the only panic sources are
the single-element query assumptions. -/
theorem c6_no_panic [FloorRing K] (inp : FrameInput K) (w : World K)
    (hproj : w.projScales.length = 1) (hwin : w.windowCount = 1) :
    (∃ w', frameStep piK sinK inp w = .ok w') ∧
      (∀ (t : K) (w0 : World K), ∃ w1, handle_rx_collision t w0 = .ok w1) := by
  constructor
  · have h5proj : (reset_simulation_timer inp.delta (reset_simulation inp.rPressed
        (move_rx inp.delta (produce_particle inp.delta
          (propagate_particle piK sinK inp.t inp.delta w))))).projScales = w.projScales := by
      rw [(reset_simulation_timer_pres _ _).1, (reset_simulation_pres _ _).1]
      rfl
    have h5win : (reset_simulation_timer inp.delta (reset_simulation inp.rPressed
        (move_rx inp.delta (produce_particle inp.delta
          (propagate_particle piK sinK inp.t inp.delta w))))).windowCount = w.windowCount := by
      rw [(reset_simulation_timer_pres _ _).2.1, (reset_simulation_pres _ _).2.1]
      rfl
    obtain ⟨projs, hfit⟩ := fit_canvas_ok inp.resizeEvents _ (h5proj ▸ hproj)
    obtain ⟨shotR, hshot⟩ := screenshot_window_ok inp.gifcreate inp.spaceJustPressed _ _
      (h5win ▸ hwin)
    obtain ⟨w', hw', -, -, -⟩ := handle_rx_collision_ok (K := K) inp.t _
    refine ⟨w', ?_⟩
    unfold frameStep
    dsimp only
    rw [hfit]
    dsimp only [exceptBind]
    rw [hshot]
    dsimp only [exceptBind]
    exact hw'
  · intro t w0
    obtain ⟨w1, hw1, -, -, -⟩ := handle_rx_collision_ok t w0
    exact ⟨w1, hw1⟩

/-- C7: with the `gifcreate` feature disabled, `screenshot_window` changes
no state and requests no file in any run of frames; with the feature
enabled, no screenshot is requested (and the locals stay at their
defaults) over any run of frames in which Space is never just-pressed. -/
theorem c7_screenshot_gated (g : Bool) :
    (g = false → ∀ (frames : List (Bool × ℕ)) (s : ScreenshotState),
        screenshotRun g frames s = .ok (s, [])) ∧
      (g = true → ∀ (frames : List (Bool × ℕ)),
        (∀ f ∈ frames, f.1 = false) →
        screenshotRun g frames { counter := 0, start_screenshot := false } =
          .ok ({ counter := 0, start_screenshot := false }, [])) := by
  constructor
  · rintro rfl frames
    induction frames with
    | nil => intro s; rfl
    | cons f rest ih =>
      intro s
      unfold screenshotRun
      simp only [show screenshot_window false f.1 f.2 s = .ok (s, []) from rfl, ih s,
        List.nil_append]
  · rintro rfl frames hall
    induction frames with
    | nil => rfl
    | cons f rest ih =>
      have hf : f.1 = false := hall f (List.mem_cons_self f rest)
      unfold screenshotRun
      rw [hf]
      simp only [show screenshot_window true false f.2 { counter := 0, start_screenshot := false } =
          .ok ({ counter := 0, start_screenshot := false }, []) from rfl,
        ih fun x hx => hall x (List.mem_cons_of_mem f hx), List.nil_append]

end Doppl

namespace Doppl

/-- Concrete transmitter for the C3 counterexample. -/
def c3Tx : TxEntity ℚ :=
  { tid := 0
    tx := { spawn_point := { x := 0, y := 0 }
            spawn_rate := { duration := 1/100, elapsed := 0, finishedFlag := false } }
    tf := { x := 400, y := 200 } }

/-- Concrete far-off-screen particle for the C3 counterexample: its global
x-position is 400 - 10640 = -10240, far left of the screen's left edge at
-RES_WIDTH/2 = -640. -/
def c3Particle : ParticleEntity ℚ :=
  { parent := 0
    sig := { speed := -200, amplitude := 50, frequency := 2 }
    tf := { x := -10640, y := 0 } }

/-- Concrete world for the C3 counterexample: one transmitter with one
far-off-screen child particle and no receivers. -/
def c3World : World ℚ :=
  { txs := [c3Tx]
    rxs := []
    particles := [c3Particle]
    resetTimer := { duration := 10, elapsed := 0, finishedFlag := false }
    projScales := []
    windowCount := 1
    shot := { counter := 0, start_screenshot := false }
    writes := []
    nextId := 1 }

/-- Concrete frame input (no reset, no resize, no screenshot feature) for
the C3 counterexample. -/
def c3Inp : FrameInput ℚ :=
  { t := 0, delta := 0, rPressed := false, spaceJustPressed := false
    resizeEvents := [], gifcreate := false }

theorem c3_frame_eval :
    frameStep (0:ℚ) (fun _ => 0) c3Inp c3World = .ok c3World := by
  norm_num [frameStep, propagate_particle, propagateOne, produce_particle, produceAux,
    move_rx, reset_simulation, reset_simulation_timer, timerTick, despawnAllTxRx,
    fit_canvas, screenshot_window, exceptBind, handle_rx_collision, processCollisions,
    processRxs, collideRxStep, rxRecordCollision, collides, globalPos,
    c3World, c3Particle, c3Inp, c3Tx]

/-- C3 counterexample: in a frame with no reset, the particle whose global
x-position (-10240) is far outside the screen (left edge -640) survives
the whole frame untouched: no system despawns an off-screen particle. -/
theorem c3_cex :
    frameStep (0:ℚ) (fun _ => 0) c3Inp c3World = .ok c3World ∧
      c3Inp.rPressed = false ∧
      (timerTick c3Inp.delta c3World.resetTimer).finishedFlag = false ∧
      c3World.particles = [c3Particle] ∧
      c3World.rxs = [] ∧
      (globalPos c3World.txs c3Particle).x < -(RES_WIDTH / 2 : ℚ) := by
  refine ⟨c3_frame_eval, rfl, ?_, rfl, rfl, ?_⟩
  · norm_num [timerTick, c3Inp, c3World]
  · norm_num [globalPos, c3World, c3Tx, c3Particle, RES_WIDTH, List.find?]

/-- Concrete world for the C6 witness: one camera projection and one
primary window. -/
def c6World : World ℚ :=
  { txs := []
    rxs := []
    particles := []
    resetTimer := { duration := 10, elapsed := 0, finishedFlag := false }
    projScales := [1]
    windowCount := 1
    shot := { counter := 0, start_screenshot := false }
    writes := []
    nextId := 0 }

/-- Concrete frame input for the C6 witness. -/
def c6Inp : FrameInput ℚ :=
  { t := 0, delta := 0, rPressed := false, spaceJustPressed := false
    resizeEvents := [], gifcreate := false }

/-- C6 witness: with exactly one projection and one window the frame runs
without a panic. -/
theorem c6_no_panic_witness :
    c6World.projScales.length = 1 ∧ c6World.windowCount = 1 ∧
      (∃ w', frameStep (0:ℚ) (fun _ => 0) c6Inp c6World = .ok w') :=
  ⟨rfl, rfl, (c6_no_panic (0:ℚ) (fun _ => 0) c6Inp c6World rfl rfl).1⟩

/-- Concrete receiver before its first collision, for the C9 witness. -/
def c9Rx : RxEntity ℚ :=
  { recv := { prev_collision_time := none, current_draw_position := 0 }
    mover := some .Left
    tf := { x := 0, y := 0 }
    plots := [] }

/-- The C9 witness receiver after its first collision at t = 2 with local
particle y = 5: the draw position is unchanged and the plot point sits at
local x-offset RECEIVER_WIDTH = 110. -/
def c9Rx' : RxEntity ℚ :=
  { recv := { prev_collision_time := some 2, current_draw_position := 0 }
    mover := some .Left
    tf := { x := 0, y := 0 }
    plots := [{ x := 110, y := 5 }] }

/-- C9 witness: the first collision of a fresh receiver, evaluated
concretely, with the monotonicity conclusions instantiated. -/
theorem c9_draw_monotone_witness :
    rxRecordCollision (2:ℚ) 5 c9Rx = .ok c9Rx' ∧
      (((∀ p, c9Rx.recv.prev_collision_time = some p → p ≤ (2:ℚ)) →
          c9Rx.recv.current_draw_position ≤ c9Rx'.recv.current_draw_position) ∧
        (c9Rx.recv.prev_collision_time = none →
          c9Rx'.recv.current_draw_position = c9Rx.recv.current_draw_position) ∧
        (c9Rx.recv.prev_collision_time = none → c9Rx.recv.current_draw_position = 0 →
          c9Rx'.plots = c9Rx.plots ++ [{ x := RECEIVER_WIDTH, y := 5 }]) ∧
        (∀ p, c9Rx.recv.prev_collision_time = some p →
          c9Rx.recv.current_draw_position ≤ 2 * RECEIVER_WIDTH →
          c9Rx'.recv.current_draw_position =
            c9Rx.recv.current_draw_position + RECEIVER_DELTA_X_PER_SECOND * ((2:ℚ) - p))) := by
  have hok : rxRecordCollision (2:ℚ) 5 c9Rx = .ok c9Rx' := by
    norm_num [rxRecordCollision, c9Rx, c9Rx', RECEIVER_WIDTH,
      PARTICLE_AMPLITUDE, PARTICLE_RADIUS]
  exact ⟨hok, c9_draw_monotone 2 5 c9Rx c9Rx' hok⟩

/-- Concrete saturated receiver for the C10 witness. -/
def c10Rx : RxEntity ℚ :=
  { recv := { prev_collision_time := some 0, current_draw_position := 250 }
    mover := some .Right
    tf := { x := 0, y := 0 }
    plots := [] }

/-- C10 witness: a collision with a saturated receiver, concretely. -/
theorem c10_saturated_witness :
    collides ({ x := 0, y := 0 } : Vec2 ℚ) c10Rx.tf = true ∧
      c10Rx.recv.current_draw_position > 2 * RECEIVER_WIDTH ∧
      collideRxStep (1:ℚ) ({ x := 0, y := 0 } : Vec2 ℚ) 0 c10Rx =
        .ok ({ c10Rx with mover := none }, true) := by
  have hc : collides ({ x := 0, y := 0 } : Vec2 ℚ) c10Rx.tf = true := by
    norm_num [collides, c10Rx, RECEIVER_WIDTH, RECEIVER_HEIGHT,
      PARTICLE_AMPLITUDE, PARTICLE_RADIUS]
  have hsat : c10Rx.recv.current_draw_position > 2 * RECEIVER_WIDTH := by
    norm_num [c10Rx, RECEIVER_WIDTH, PARTICLE_AMPLITUDE, PARTICLE_RADIUS]
  exact ⟨hc, hsat, c10_saturated 1 0 ({ x := 0, y := 0 } : Vec2 ℚ) c10Rx hc hsat⟩

end Doppl
